import Mathlib

/-!
Shallow embedding of `VPF_Calculator.py` (Pension Fund Tax Benefit
Calculator, Pakistan 2026).  Numeric values are modelled as exact
rationals `ℚ`; the decimal literals of the source (`0.05`, `0.20`, …)
denote the same rational numbers here.  Python's `round(x)`
(banker's rounding, half to even) is modelled by `pyRound`.
-/

namespace VPF

/-- Python built-in `round` to zero digits: nearest integer, ties to even. -/
def pyRound (x : ℚ) : ℤ :=
  let f := ⌊x⌋
  let frac := x - (f : ℚ)
  if frac < 1/2 then f
  else if 1/2 < frac then f + 1
  else if f % 2 = 0 then f else f + 1

/-- Python `str.title` as applied in the source.  The only strings reaching
it are the single lowercase words `"salaried"` and `"business"`, on which
`str.title` agrees with capitalising the first character. -/
def pyTitle (s : String) : String := s.capitalize

/-- `salary_slabs`: mapping from annual-income upper bound to the fixed tax
value for 2026, in the (ascending) order the source dictionary lists them. -/
def salary_slabs : List (ℚ × ℚ) :=
  [(600000, 0), (1200000, 6000), (1800000, 72000), (2400000, 162000),
   (2700000, 231000), (3000000, 300000), (3600000, 466000), (4200000, 651000),
   (4800000, 861000), (5400000, 1071000), (6000000, 1281000), (6600000, 1491000),
   (7200000, 1701000), (9600000, 2541000), (12000000, 3692850), (18000000, 5981850),
   (24000000, 8270850), (30000000, 10559850), (33600000, 11933250), (36000000, 12848850)]

/-- `business_slabs`: tuples `(limit, base_tax, rate)`; `none` stands for the
source's `float("inf")` on the last entry. -/
def business_slabs : List (Option ℚ × ℚ × ℚ) :=
  [(some 600000, 0, 0),
   (some 800000, 0, 0.05),
   (some 1200000, 10000, 0.125),
   (some 2400000, 60000, 0.175),
   (some 3000000, 270000, 0.225),
   (some 4000000, 405000, 0.275),
   (some 6000000, 680000, 0.325),
   (none, 1330000, 0.35)]

/-- The comparison `annual_income <= limit` of the source loop; comparison
with `float("inf")` (here `none`) is always true. -/
def withinLimit (income : ℚ) : Option ℚ → Bool
  | none => true
  | some l => income ≤ l

/-- The `for i, (limit, base_tax, rate) in enumerate(business_slabs)` loop of
`calculate_business_tax`.  `prev` carries `business_slabs[i-1][0]`
(`0` before the first entry); it is advanced to the current entry's limit
when the entry does not match.  The `return 0` after the loop is the `[]`
case. -/
def businessTaxScan (income : ℚ) : ℚ → List (Option ℚ × ℚ × ℚ) → ℚ
  | _, [] => 0
  | prev, (limit, base_tax, rate) :: rest =>
    if withinLimit income limit then base_tax + (income - prev) * rate
    else businessTaxScan income (limit.getD 0) rest

/-- `calculate_business_tax`: progressive tax calculation for business
income. -/
def calculate_business_tax (annual_income : ℚ) : ℚ :=
  if annual_income ≤ 600000 then 0
  else businessTaxScan annual_income 0 business_slabs

/-- The `for slab in sorted_slabs` loop of `get_salaried_tax`: first slab
with `annual_income <= slab` wins; the fall-through value is the tax of the
largest slab. -/
def salariedScan (income : ℚ) : List (ℚ × ℚ) → ℚ → ℚ
  | [], dflt => dflt
  | (slab, tax) :: rest, dflt =>
    if income ≤ slab then tax else salariedScan income rest dflt

/-- `get_salaried_tax`: find nearest salaried tax slab based on income.
The source iterates over `sorted(salary_slabs.keys())`; the keys of
`salary_slabs` are already listed in strictly ascending order
(`salary_slabs_keys_sorted` below), so sorting leaves the order unchanged. -/
def get_salaried_tax (annual_income : ℚ) : ℚ :=
  salariedScan annual_income salary_slabs
    (((salary_slabs.getLast?).map Prod.snd).getD 0)

/-- The classification dispatch at the top of `pension_tax_calculator`:
`None` for an unrecognised income type. -/
def resolve_tax (income_type : String) (annual_income : ℚ) : Option ℚ :=
  if income_type = "salaried" then some (get_salaried_tax annual_income)
  else if income_type = "business" then some (calculate_business_tax annual_income)
  else none

/-- `avg_tax_rate = tax_2026 / annual_income if tax_2026 > 0 else 0`. -/
def avg_tax_rate (tax_2026 annual_income : ℚ) : ℚ :=
  if 0 < tax_2026 then tax_2026 / annual_income else 0

/-- `max_invest = 0.20 * annual_income`. -/
def max_invest (annual_income : ℚ) : ℚ := 0.20 * annual_income

/-- `invest`: the requested pension investment, defaulted to `max_invest`
when absent (`None`) or zero, otherwise clamped by `min` to `max_invest`. -/
def invest (pension_invest : Option ℚ) (annual_income : ℚ) : ℚ :=
  match pension_invest with
  | none => max_invest annual_income
  | some p => if p = 0 then max_invest annual_income
              else min p (max_invest annual_income)

/-- `rebate = invest * avg_tax_rate`. -/
def rebate (pension_invest : Option ℚ) (annual_income tax_2026 : ℚ) : ℚ :=
  invest pension_invest annual_income * avg_tax_rate tax_2026 annual_income

/-- `new_tax = tax_2026 - rebate`. -/
def new_tax (pension_invest : Option ℚ) (annual_income tax_2026 : ℚ) : ℚ :=
  tax_2026 - rebate pension_invest annual_income tax_2026

/-- The nine-field result dictionary of `pension_tax_calculator`, with every
numeric field rounded to the nearest whole unit as in the source. -/
structure CalcResult where
  incomeType : String
  annualIncome : ℤ
  monthlyIncome : ℤ
  taxWithoutPension : ℤ
  maxPensionInvestment : ℤ
  yourPensionInvestment : ℤ
  taxSaving : ℤ
  newTaxPayable : ℤ
  monthlySaving : ℤ
deriving DecidableEq, Repr

/-- `pension_tax_calculator`: resolves the base tax by classification
(`None` for an unrecognised one), rejects zero annual income, then builds
the result record. -/
def pension_tax_calculator (income_type : String) (annual_income : ℚ)
    (pension_invest : Option ℚ) : Option CalcResult :=
  match resolve_tax income_type annual_income with
  | none => none
  | some tax_2026 =>
    if annual_income = 0 then none
    else some
      { incomeType := pyTitle income_type
        annualIncome := pyRound annual_income
        monthlyIncome := pyRound (annual_income / 12)
        taxWithoutPension := pyRound tax_2026
        maxPensionInvestment := pyRound (max_invest annual_income)
        yourPensionInvestment := pyRound (invest pension_invest annual_income)
        taxSaving := pyRound (rebate pension_invest annual_income tax_2026)
        newTaxPayable := pyRound (new_tax pension_invest annual_income tax_2026)
        monthlySaving := pyRound (rebate pension_invest annual_income tax_2026 / 12) }

/-- The keys of `salary_slabs` are strictly increasing, so the source's
`sorted(salary_slabs.keys())` returns them in the listed order. -/
lemma salary_slabs_keys_sorted :
    List.Pairwise (fun p q : ℚ × ℚ => p.1 < q.1) salary_slabs := by decide

/-- Helper: the salaried scan unfolded on the concrete table is the evident
chain of inclusive upper-bound tests, falling through to the last tax value. -/
lemma get_salaried_tax_eq (x : ℚ) :
    get_salaried_tax x =
      if x ≤ 600000 then 0
      else if x ≤ 1200000 then 6000
      else if x ≤ 1800000 then 72000
      else if x ≤ 2400000 then 162000
      else if x ≤ 2700000 then 231000
      else if x ≤ 3000000 then 300000
      else if x ≤ 3600000 then 466000
      else if x ≤ 4200000 then 651000
      else if x ≤ 4800000 then 861000
      else if x ≤ 5400000 then 1071000
      else if x ≤ 6000000 then 1281000
      else if x ≤ 6600000 then 1491000
      else if x ≤ 7200000 then 1701000
      else if x ≤ 9600000 then 2541000
      else if x ≤ 12000000 then 3692850
      else if x ≤ 18000000 then 5981850
      else if x ≤ 24000000 then 8270850
      else if x ≤ 30000000 then 10559850
      else if x ≤ 33600000 then 11933250
      else if x ≤ 36000000 then 12848850
      else 12848850 := by
  simp only [get_salaried_tax, salary_slabs, salariedScan, List.getLast?,
    List.getLast, Option.map, Option.getD]

/-- Helper: the business scan unfolded on the concrete table. -/
lemma calculate_business_tax_eq (x : ℚ) :
    calculate_business_tax x =
      if x ≤ 600000 then 0
      else if x ≤ 800000 then 0 + (x - 600000) * 0.05
      else if x ≤ 1200000 then 10000 + (x - 800000) * 0.125
      else if x ≤ 2400000 then 60000 + (x - 1200000) * 0.175
      else if x ≤ 3000000 then 270000 + (x - 2400000) * 0.225
      else if x ≤ 4000000 then 405000 + (x - 3000000) * 0.275
      else if x ≤ 6000000 then 680000 + (x - 4000000) * 0.325
      else 1330000 + (x - 6000000) * 0.35 := by
  by_cases h0 : x ≤ 600000
  · simp [calculate_business_tax, h0]
  · simp only [calculate_business_tax, if_neg h0, business_slabs, businessTaxScan,
      withinLimit, Option.getD, decide_eq_true_eq, if_neg h0, if_true]

/-- Helper: a value below every tax entry of the table and below the default
is below whatever the salaried scan returns. -/
lemma le_salariedScan (income d t : ℚ) (l : List (ℚ × ℚ)) :
    (∀ p ∈ l, t ≤ p.2) → t ≤ d → t ≤ salariedScan income l d := by
  induction l with
  | nil => intro _ hd; simpa [salariedScan] using hd
  | cons q rest ih =>
    intro hl hd
    obtain ⟨b, v⟩ := q
    by_cases h : income ≤ b
    · simpa [salariedScan, h] using hl (b, v) (by simp)
    · simp only [salariedScan, if_neg h]
      exact ih (fun p hp => hl p (List.mem_cons_of_mem _ hp)) hd

/-- Helper: the salaried scan is monotone in the income when the tax values
along the table are non-decreasing and bounded by the default. -/
lemma salariedScan_mono (x y d : ℚ) (hxy : x ≤ y) (l : List (ℚ × ℚ)) :
    List.Pairwise (fun p q : ℚ × ℚ => p.2 ≤ q.2) l →
    (∀ p ∈ l, p.2 ≤ d) → salariedScan x l d ≤ salariedScan y l d := by
  induction l with
  | nil => intro _ _; simp [salariedScan]
  | cons q rest ih =>
    intro hpw hd
    obtain ⟨b, v⟩ := q
    by_cases hx : x ≤ b
    · by_cases hy : y ≤ b
      · simp [salariedScan, hx, hy]
      · simp only [salariedScan, if_pos hx, if_neg hy]
        refine le_salariedScan y d v rest ?_ (hd (b, v) (by simp))
        intro p hp
        exact (List.pairwise_cons.mp hpw).1 p hp
    · have hy : ¬ y ≤ b := fun h => hx (hxy.trans h)
      simp only [salariedScan, if_neg hx, if_neg hy]
      exact ih (List.pairwise_cons.mp hpw).2
        (fun p hp => hd p (List.mem_cons_of_mem _ hp))

/-- Helper: the salaried tax is never negative. -/
lemma get_salaried_tax_nonneg (x : ℚ) : 0 ≤ get_salaried_tax x := by
  unfold get_salaried_tax
  refine le_salariedScan x _ 0 salary_slabs ?_ ?_ <;> decide

/-- Helper: the business scan stays non-negative as long as the carried
previous bound is at most the income and all bases and rates are
non-negative. -/
lemma businessTaxScan_nonneg (income : ℚ) (l : List (Option ℚ × ℚ × ℚ)) :
    ∀ prev : ℚ, prev ≤ income →
    (∀ e ∈ l, 0 ≤ e.2.1 ∧ 0 ≤ e.2.2) → 0 ≤ businessTaxScan income prev l := by
  induction l with
  | nil => intro prev _ _; simp [businessTaxScan]
  | cons e rest ih =>
    intro prev hprev hnn
    obtain ⟨limit, base_tax, rate⟩ := e
    by_cases h : withinLimit income limit = true
    · simp only [businessTaxScan, if_pos h]
      have hb := hnn (limit, base_tax, rate) (by simp)
      have h1 : 0 ≤ (income - prev) * rate :=
        mul_nonneg (by linarith) hb.2
      linarith [hb.1]
    · simp only [businessTaxScan, if_neg h]
      apply ih
      · cases limit with
        | none => simp [withinLimit] at h
        | some b =>
          simp only [withinLimit, decide_eq_true_eq] at h
          simp only [Option.getD]
          linarith [lt_of_not_le h]
      · exact fun e he => hnn e (List.mem_cons_of_mem _ he)

/-- Helper: the business tax is never negative. -/
lemma calculate_business_tax_nonneg (x : ℚ) : 0 ≤ calculate_business_tax x := by
  unfold calculate_business_tax
  split_ifs with h
  · exact le_refl 0
  · refine businessTaxScan_nonneg x business_slabs 0 (by linarith [lt_of_not_le h]) ?_
    intro e he
    fin_cases he <;> norm_num

/-- Helper: any base tax produced by the classification dispatch is
non-negative. -/
lemma resolve_tax_nonneg (income_type : String) (annual_income tax_2026 : ℚ)
    (h : resolve_tax income_type annual_income = some tax_2026) : 0 ≤ tax_2026 := by
  unfold resolve_tax at h
  split_ifs at h <;> simp only [Option.some.injEq] at h
  · exact h ▸ get_salaried_tax_nonneg annual_income
  · exact h ▸ calculate_business_tax_nonneg annual_income

/-- C1: the business tax resolver returns 0 for income at most 600,000 and
otherwise resolves to the first bracket whose bound is ≥ the income
(inclusive comparison, the final bracket's bound being infinite), returning
`base_tax_of_bracket + (income - bound_of_previous_bracket) * rate`, with 0
as the previous bound for the first bracket. -/
theorem claim_business_tax_formula (x : ℚ) :
    calculate_business_tax x =
      if x ≤ 600000 then 0
      else if x ≤ 800000 then 0 + (x - 600000) * 0.05
      else if x ≤ 1200000 then 10000 + (x - 800000) * 0.125
      else if x ≤ 2400000 then 60000 + (x - 1200000) * 0.175
      else if x ≤ 3000000 then 270000 + (x - 2400000) * 0.225
      else if x ≤ 4000000 then 405000 + (x - 3000000) * 0.275
      else if x ≤ 6000000 then 680000 + (x - 4000000) * 0.325
      else 1330000 + (x - 6000000) * 0.35 :=
  calculate_business_tax_eq x

/-- C2: the salaried tax resolver returns the tax of the smallest slab bound
that is ≥ the income (inclusive comparison), and past the largest bound
(36,000,000) it returns the tax of that largest bound (12,848,850). -/
theorem claim_salaried_tax_lookup (x : ℚ) :
    get_salaried_tax x =
      if x ≤ 600000 then 0
      else if x ≤ 1200000 then 6000
      else if x ≤ 1800000 then 72000
      else if x ≤ 2400000 then 162000
      else if x ≤ 2700000 then 231000
      else if x ≤ 3000000 then 300000
      else if x ≤ 3600000 then 466000
      else if x ≤ 4200000 then 651000
      else if x ≤ 4800000 then 861000
      else if x ≤ 5400000 then 1071000
      else if x ≤ 6000000 then 1281000
      else if x ≤ 6600000 then 1491000
      else if x ≤ 7200000 then 1701000
      else if x ≤ 9600000 then 2541000
      else if x ≤ 12000000 then 3692850
      else if x ≤ 18000000 then 5981850
      else if x ≤ 24000000 then 8270850
      else if x ≤ 30000000 then 10559850
      else if x ≤ 33600000 then 11933250
      else if x ≤ 36000000 then 12848850
      else 12848850 :=
  get_salaried_tax_eq x

/-- C6: continuity at each bracket boundary: the business tax at an interior
bound (computed, by the inclusive rule, through the bracket whose bound this
is) equals the cumulative base tax recorded for the next bracket. -/
theorem claim_business_boundary_continuity (i : Fin 7) :
    calculate_business_tax (((business_slabs.getD (i : ℕ) (none, 0, 0)).1).getD 0) =
      (business_slabs.getD ((i : ℕ) + 1) (none, 0, 0)).2.1 := by
  fin_cases i <;>
    norm_num [business_slabs, calculate_business_tax, businessTaxScan, withinLimit]

/-- C7: the salaried tax resolver is monotonically non-decreasing in the
income. -/
theorem claim_salaried_monotone (x y : ℚ) (hxy : x ≤ y) :
    get_salaried_tax x ≤ get_salaried_tax y := by
  unfold get_salaried_tax
  refine salariedScan_mono x y _ hxy salary_slabs ?_ ?_ <;> decide

/-- Witness for C7 at the concrete pair (500,000, 2,000,000). -/
theorem claim_salaried_monotone_witness :
    get_salaried_tax 500000 ≤ get_salaried_tax 2000000 :=
  claim_salaried_monotone 500000 2000000 (by norm_num)

/-- C8: every annual income of at most 600,000 resolves to base tax 0 under
both classifications. -/
theorem claim_low_income_zero_tax (x : ℚ) (h : x ≤ 600000) :
    get_salaried_tax x = 0 ∧ calculate_business_tax x = 0 := by
  constructor
  · rw [get_salaried_tax_eq, if_pos h]
  · unfold calculate_business_tax; rw [if_pos h]

/-- Witness for C8 at the concrete income 500,000. -/
theorem claim_low_income_zero_tax_witness :
    get_salaried_tax 500000 = 0 ∧ calculate_business_tax 500000 = 0 :=
  claim_low_income_zero_tax 500000 (by norm_num)

/-- Helper: `pyRound` is the identity on integers. -/
lemma pyRound_intCast (n : ℤ) : pyRound ((n : ℤ) : ℚ) = n := by
  unfold pyRound
  rw [Int.floor_intCast]
  norm_num

/-- Helper: `pyRound` evaluated through an integer value. -/
lemma pyRound_eq_of_intCast (x : ℚ) (n : ℤ) (h : x = (n : ℚ)) : pyRound x = n := by
  rw [h]; exact pyRound_intCast n

/-- Helper: the result record produced on a recognised classification and a
nonzero annual income. -/
lemma pension_tax_calculator_eq (income_type : String) (annual_income : ℚ)
    (pension_invest : Option ℚ) (tax_2026 : ℚ)
    (hres : resolve_tax income_type annual_income = some tax_2026)
    (h0 : annual_income ≠ 0) :
    pension_tax_calculator income_type annual_income pension_invest = some
      { incomeType := pyTitle income_type
        annualIncome := pyRound annual_income
        monthlyIncome := pyRound (annual_income / 12)
        taxWithoutPension := pyRound tax_2026
        maxPensionInvestment := pyRound (max_invest annual_income)
        yourPensionInvestment := pyRound (invest pension_invest annual_income)
        taxSaving := pyRound (rebate pension_invest annual_income tax_2026)
        newTaxPayable := pyRound (new_tax pension_invest annual_income tax_2026)
        monthlySaving := pyRound (rebate pension_invest annual_income tax_2026 / 12) } := by
  unfold pension_tax_calculator
  rw [hres]
  simp [h0]

/-- Helper: the effective investment never exceeds the 20% cap. -/
lemma invest_le_max (pension_invest : Option ℚ) (annual_income : ℚ) :
    invest pension_invest annual_income ≤ max_invest annual_income := by
  cases pension_invest with
  | none => exact le_refl _
  | some p =>
    by_cases hp : p = 0
    · simp [invest, hp]
    · simp only [invest, if_neg hp]
      exact min_le_right _ _

/-- C3: the calculator returns the absent-result signal exactly when the
classification is neither `"salaried"` nor `"business"` or the annual income
is zero; in every other case it returns a full result record. -/
theorem claim_no_result_iff_invalid (income_type : String) (annual_income : ℚ)
    (pension_invest : Option ℚ) :
    pension_tax_calculator income_type annual_income pension_invest = none ↔
      (income_type ≠ "salaried" ∧ income_type ≠ "business") ∨ annual_income = 0 := by
  unfold pension_tax_calculator resolve_tax
  by_cases hs : income_type = "salaried"
  · by_cases h0 : annual_income = 0 <;> simp [hs, h0]
  · by_cases hb : income_type = "business"
    · by_cases h0 : annual_income = 0 <;> simp [hs, hb, h0]
    · simp [hs, hb]

/-- C4: for a valid classification and positive income, the effective
investment never exceeds 20% of the annual income (and that is the value
recorded in the result), and an absent or zero request yields exactly the
20% maximum. -/
theorem claim_investment_cap (income_type : String) (annual_income : ℚ)
    (pension_invest : Option ℚ) (hai : 0 < annual_income) (r : CalcResult)
    (hr : pension_tax_calculator income_type annual_income pension_invest = some r) :
    invest pension_invest annual_income ≤ max_invest annual_income ∧
    r.yourPensionInvestment = pyRound (invest pension_invest annual_income) ∧
    ((pension_invest = none ∨ pension_invest = some 0) →
      invest pension_invest annual_income = max_invest annual_income) := by
  refine ⟨invest_le_max pension_invest annual_income, ?_, ?_⟩
  · rcases hres : resolve_tax income_type annual_income with _ | tax_2026
    · rw [pension_tax_calculator, hres] at hr
      simp at hr
    · rw [pension_tax_calculator_eq income_type annual_income pension_invest tax_2026
        hres (ne_of_gt hai)] at hr
      rw [← Option.some.inj hr]
  · rintro (h | h) <;> subst h
    · rfl
    · simp [invest]

/-- C5: the new tax payable is the base tax minus the tax saving, and the
saving (effective investment times the average rate, the rate being base tax
over income, 0 when the base tax is 0) never exceeds the base tax, so the
new tax payable is never negative. -/
theorem claim_saving_bounded_by_tax (income_type : String) (annual_income : ℚ)
    (pension_invest : Option ℚ) (tax_2026 : ℚ)
    (hai : 0 < annual_income)
    (hpi : ∀ p, pension_invest = some p → 0 ≤ p)
    (htax : resolve_tax income_type annual_income = some tax_2026) :
    new_tax pension_invest annual_income tax_2026 =
      tax_2026 - rebate pension_invest annual_income tax_2026 ∧
    rebate pension_invest annual_income tax_2026 ≤ tax_2026 ∧
    0 ≤ new_tax pension_invest annual_income tax_2026 := by
  have htnn : 0 ≤ tax_2026 := resolve_tax_nonneg _ _ _ htax
  have hmax : max_invest annual_income ≤ annual_income := by
    unfold max_invest; linarith
  have hinv : invest pension_invest annual_income ≤ annual_income :=
    le_trans (invest_le_max pension_invest annual_income) hmax
  have hreb : rebate pension_invest annual_income tax_2026 ≤ tax_2026 := by
    unfold rebate avg_tax_rate
    split_ifs with ht
    · have hr0 : 0 ≤ tax_2026 / annual_income := div_nonneg htnn (le_of_lt hai)
      have hle := mul_le_mul_of_nonneg_right hinv hr0
      have heq : annual_income * (tax_2026 / annual_income) = tax_2026 := by
        field_simp
      linarith
    · simpa using htnn
  exact ⟨rfl, hreb, by unfold new_tax; linarith⟩

/-- Witness for C5: salaried classification, income 1,200,000, requested
investment 100,000. -/
theorem claim_saving_bounded_by_tax_witness :
    new_tax (some 100000) 1200000 6000 =
      6000 - rebate (some 100000) 1200000 6000 ∧
    rebate (some 100000) 1200000 6000 ≤ 6000 ∧
    0 ≤ new_tax (some 100000) 1200000 6000 :=
  claim_saving_bounded_by_tax "salaried" 1200000 (some 100000) 6000
    (by norm_num)
    (by intro p hp; injection hp with h; rw [← h]; norm_num)
    (by norm_num [resolve_tax, get_salaried_tax, salariedScan, salary_slabs])

/-- Helper: the full result record for a salaried income of 1,200,000 when
the effective investment resolves to the 240,000 maximum. -/
lemma salaried_1200000_record (pi0 : Option ℚ) (hpi : invest pi0 1200000 = 240000) :
    pension_tax_calculator "salaried" 1200000 pi0 = some
      { incomeType := "Salaried", annualIncome := 1200000, monthlyIncome := 100000,
        taxWithoutPension := 6000, maxPensionInvestment := 240000,
        yourPensionInvestment := 240000, taxSaving := 1200,
        newTaxPayable := 4800, monthlySaving := 100 } := by
  have hs : get_salaried_tax 1200000 = 6000 := by
    norm_num [get_salaried_tax, salariedScan, salary_slabs]
  rw [pension_tax_calculator_eq "salaried" 1200000 pi0 6000
    (by norm_num [resolve_tax, hs]) (by norm_num)]
  refine congrArg some ?_
  simp only [CalcResult.mk.injEq]
  refine ⟨rfl, ?_, ?_, ?_, ?_, ?_, ?_, ?_, ?_⟩
  · exact pyRound_eq_of_intCast _ 1200000 (by norm_num)
  · exact pyRound_eq_of_intCast _ 100000 (by norm_num)
  · exact pyRound_eq_of_intCast _ 6000 (by norm_num)
  · exact pyRound_eq_of_intCast _ 240000 (by norm_num [max_invest])
  · exact pyRound_eq_of_intCast _ 240000 (by norm_num [hpi])
  · exact pyRound_eq_of_intCast _ 1200 (by norm_num [rebate, hpi, avg_tax_rate])
  · exact pyRound_eq_of_intCast _ 4800 (by norm_num [new_tax, rebate, hpi, avg_tax_rate])
  · exact pyRound_eq_of_intCast _ 100 (by norm_num [rebate, hpi, avg_tax_rate])

/-- Witness for C4: salaried classification, income 1,200,000, absent
requested investment. -/
theorem claim_investment_cap_witness :
    invest none 1200000 ≤ max_invest 1200000 ∧
    CalcResult.yourPensionInvestment
      { incomeType := "Salaried", annualIncome := 1200000, monthlyIncome := 100000,
        taxWithoutPension := 6000, maxPensionInvestment := 240000,
        yourPensionInvestment := 240000, taxSaving := 1200,
        newTaxPayable := 4800, monthlySaving := 100 } = pyRound (invest none 1200000) ∧
    (((none : Option ℚ) = none ∨ (none : Option ℚ) = some 0) →
      invest none 1200000 = max_invest 1200000) :=
  claim_investment_cap "salaried" 1200000 none (by norm_num) _
    (salaried_1200000_record none (by norm_num [invest, max_invest]))

/-- C9: the concrete salaried scenario of the specification: income
1,200,000 and requested investment 0 produce base tax 6,000, average rate
0.005, maximum and effective investment 240,000, saving 1,200, new tax
4,800 and monthly saving 100. -/
theorem claim_concrete_salaried_scenario :
    pension_tax_calculator "salaried" 1200000 (some 0) = some
      { incomeType := "Salaried", annualIncome := 1200000, monthlyIncome := 100000,
        taxWithoutPension := 6000, maxPensionInvestment := 240000,
        yourPensionInvestment := 240000, taxSaving := 1200,
        newTaxPayable := 4800, monthlySaving := 100 } ∧
    avg_tax_rate (get_salaried_tax 1200000) 1200000 = 0.005 := by
  have hs : get_salaried_tax 1200000 = 6000 := by
    norm_num [get_salaried_tax, salariedScan, salary_slabs]
  refine ⟨salaried_1200000_record (some 0) (by norm_num [invest, max_invest]), ?_⟩
  rw [hs]
  norm_num [avg_tax_rate]

/-- C10: a strictly negative requested investment is neither rejected nor
clamped to zero: the effective investment is the negative amount itself (and
is what the result records), and with a positive base tax the saving is
negative and the new tax payable exceeds the base tax. -/
theorem claim_negative_invest_passthrough (income_type : String)
    (annual_income p tax_2026 : ℚ) (hai : 0 < annual_income) (hp : p < 0)
    (htax : resolve_tax income_type annual_income = some tax_2026) :
    invest (some p) annual_income = p ∧
    (∃ r, pension_tax_calculator income_type annual_income (some p) = some r ∧
      r.yourPensionInvestment = pyRound p) ∧
    (0 < tax_2026 →
      rebate (some p) annual_income tax_2026 < 0 ∧
      tax_2026 < new_tax (some p) annual_income tax_2026) := by
  have hp0 : p ≠ 0 := ne_of_lt hp
  have hinv : invest (some p) annual_income = p := by
    have hmax : 0 ≤ max_invest annual_income := by unfold max_invest; linarith
    simp only [invest, if_neg hp0]
    exact min_eq_left (by linarith)
  refine ⟨hinv, ?_, ?_⟩
  · refine ⟨_, pension_tax_calculator_eq income_type annual_income (some p) tax_2026
      htax (ne_of_gt hai), ?_⟩
    simp [hinv]
  · intro ht
    have hrate : 0 < tax_2026 / annual_income := div_pos ht hai
    have hr : rebate (some p) annual_income tax_2026 = p * (tax_2026 / annual_income) := by
      unfold rebate avg_tax_rate
      rw [if_pos ht, hinv]
    have hneg : p * (tax_2026 / annual_income) < 0 := mul_neg_of_neg_of_pos hp hrate
    constructor
    · rw [hr]; exact hneg
    · unfold new_tax
      rw [hr]
      linarith

/-- Witness for C10: salaried classification, income 1,200,000, requested
investment −50,000. -/
theorem claim_negative_invest_passthrough_witness :
    invest (some (-50000)) 1200000 = -50000 ∧
    (∃ r, pension_tax_calculator "salaried" 1200000 (some (-50000)) = some r ∧
      r.yourPensionInvestment = pyRound (-50000)) ∧
    ((0 : ℚ) < 6000 →
      rebate (some (-50000)) 1200000 6000 < 0 ∧
      (6000 : ℚ) < new_tax (some (-50000)) 1200000 6000) :=
  claim_negative_invest_passthrough "salaried" 1200000 (-50000) 6000
    (by norm_num) (by norm_num)
    (by norm_num [resolve_tax, get_salaried_tax, salariedScan, salary_slabs])

end VPF
